import Mathlib

/-!
Shallow embedding of the erc20-spider event ingestion core
(`src/core/event_decoder.py`, `src/core/pool_tracker.py`,
`src/core/transaction_classifier.py`, `src/core/eth_spider.py`,
`src/utils/config.py`) together with theorems settling the
specification claims about it.

Modelling conventions:
* Python strings are Lean `String`s; slicing/`lower()` are expressed on the
  underlying `List Char` (`String.data`), which matches Python semantics for
  the ASCII hex strings this pipeline manipulates.
* Python `int(s, 16)` is modelled by `pyIntHex`, which succeeds exactly on
  nonempty strings of hex digits (the only shapes the wire format produces)
  and fails otherwise; a Python `ValueError` corresponds to `none`.
* `web3.Web3.to_checksum_address` is modelled by `to_checksum_address`:
  it validates a 42-char `0x`-prefixed hex string and canonicalises it to
  lowercase.  The real function recapitalises hex digits per EIP-55 (a
  Keccak-based case pattern that never changes the digit values) and raises
  `ValueError` on invalid input; case is irrelevant everywhere downstream
  (every consumer compares `.lower()` forms), so lowercase is used as the
  canonical checksum form here.
* Python floats produced by `raw / 10 ** decimals` are modelled as exact
  rationals `ℚ`; the claims under study concern which integers are divided,
  not float rounding.
* `datetime.now()` is modelled as an explicit clock argument `now : ℕ`
  threaded into `add_pool`.
* Fallible decoders return `Option`; the `try/except (ValueError, IndexError)`
  wrappers collapse every parse failure to `None`, modelled by propagating
  `none`.
* Telegram notification calls are external I/O; they are modelled as
  `Notification` values emitted by the handlers.
-/

namespace Spider

/-! ### Configuration constants (`src/utils/config.py`) -/

def ERC20_CONTRACT_ADDRESS : String := "0xdA5e1988097297dCdc1f90D4dFE7909e847CBeF6"

def CONTRACT_DECIMALS : Nat := 18

def MIN_TOKENS_THRESHOLD : ℚ := 7500000

def MIN_LIQUIDITY_THRESHOLD : ℚ := 100000

def ZERO_ADDRESS : String := "0x0000000000000000000000000000000000000000"

def BURN_ADDRESS : String := "0x000000000000000000000000000000000000dEaD"

def DEX_ROUTERS : List String :=
  [ "0x7a250d5630b4cf539739df2c5dacb4c659f2488d",
    "0xe592427a0aece92de3edee1f18e0157c05861564",
    "0xd9e1ce17f2641f24ae83637ab66a2cca9c378b9f",
    "0x1b02da8cb0d097eb8d57a175b88c7d8b47997506",
    "0x68b3465833fb72a70ecdf485e0e4c7bd8665fc45",
    "0x1111111254fb6c44bac0bed2854e76f90643097d" ]

def CEX_ADDRESSES : List String :=
  [ "0x3f5ce5fbfe3e9af3971dd833d26ba9b5c936f0be",
    "0xd551234ae421e3bcba99a0da6d736074f22192ff",
    "0x564286362092d8e7936f0549571a803b203aaced",
    "0xdfd5293d8e347dfe59e90efd55b2956a1343963d",
    "0xa9d1e08c7793af67e9d92fe308d5697fb81d3e43",
    "0x71660c4005ba85c37ccec55d0c4493e66fe775d3",
    "0x503828976d22510aad0201ac7ec88293211d23da",
    "0x77696bb39917c91a0c3908d577d5e322095425ca",
    "0x2910543af39aba0cd09dbb2d50200b3e800a63d2",
    "0x0a869d79a7052c7f1b55a8ebabbea3420f0d1e13",
    "0x6cc5f688a315f3dc28a7781717a9a798a59fda7b",
    "0x236f9f97e0e62388479bf9e5ba4889e46b0273c3",
    "0x46340b20830761efd32832a74d7169b29feb9758",
    "0x28c6c06298d514db089934071355e5743bf21d60" ]

/-! ### Python string primitives -/

/-- Python `s.lower()` (ASCII case folding; all strings here are ASCII hex). -/
def pyLower (s : String) : String := ⟨s.data.map Char.toLower⟩

/-- Python `s[-n:]`: the last `n` characters (the whole string when shorter). -/
def pyLast (n : Nat) (s : String) : String := ⟨s.data.drop (s.data.length - n)⟩

/-- Python `s[a:b]` for `0 ≤ a ≤ b`. -/
def pySlice (s : String) (a b : Nat) : String := ⟨(s.data.drop a).take (b - a)⟩

/-- Python `s[2:]`, used to strip the `0x` prefix of `data` payloads. -/
def pyDrop2 (s : String) : String := ⟨s.data.drop 2⟩

/-- Hex digit recogniser, `0-9a-fA-F`. -/
def isHexDigitChar (c : Char) : Bool :=
  c.isDigit || (decide ('a' ≤ c) && decide (c ≤ 'f')) ||
    (decide ('A' ≤ c) && decide (c ≤ 'F'))

/-- Numeric value of a hex digit. -/
def hexDigitVal (c : Char) : Nat :=
  if c.isDigit then c.toNat - '0'.toNat
  else if decide ('a' ≤ c) then c.toNat - 'a'.toNat + 10
  else c.toNat - 'A'.toNat + 10

/-- Value of a big-endian hex digit string. -/
def hexListVal (l : List Char) : Nat :=
  l.foldl (fun acc c => 16 * acc + hexDigitVal c) 0

/-- Models Python `int(s, 16)` on the strings the transport can deliver:
succeeds exactly on nonempty all-hex-digit strings; a `ValueError` on any
other string is modelled by `none`. -/
def pyIntHex (s : String) : Option Nat :=
  if !s.data.isEmpty && s.data.all isHexDigitChar then some (hexListVal s.data)
  else none

/-- Models `Web3.to_checksum_address`: validates a 42-character `0x`-prefixed
hex string and returns the canonical (lowercase, see file header) form;
`ValueError` on invalid input is modelled by `none`. -/
def to_checksum_address (s : String) : Option String :=
  if s.data.length = 42 && s.data.take 2 = ['0', 'x'] &&
      (s.data.drop 2).all isHexDigitChar
  then some ⟨'0' :: 'x' :: (s.data.drop 2).map Char.toLower⟩
  else none

/-- `"0x" + s` (explicit character-list form, to keep proofs over `data`). -/
def hexPrefix (s : String) : String := ⟨'0' :: 'x' :: s.data⟩

/-- `"0x" + topics[i][-40:]`, the address-extraction idiom of the decoders. -/
def topicAddress (t : String) : String := hexPrefix (pyLast 40 t)

/-! ### Raw logs (`RawLog` of the spec) -/

/-- One observed log entry as delivered by the subscription transport. -/
structure RawLog where
  address : String
  topics : List String
  data : String
  transactionHash : String
deriving Repr, DecidableEq

/-! ### BinaryCodec (`src/core/event_decoder.py`, class `EventDecoder`)

Each decoder mirrors its Python source line by line: the guard order is the
source's, string slices use the Python idioms defined above, and every parse
failure (`ValueError`/`IndexError`, caught by the source's `except` clause)
is `none`. -/

/-- `EventDecoder.decode_transfer`: `(from, to, token_amount)` or `None`.
Note the source parses the WHOLE data blob (`int(data[2:], 16)`), not only
its first 32-byte word. -/
def decode_transfer (log : RawLog) : Option (String × String × ℚ) :=
  let topics := log.topics
  if topics.length < 3 then none
  else
    let from_addr := topicAddress (topics.getD 1 "")
    let to_addr := topicAddress (topics.getD 2 "")
    let data := log.data
    if data.data.length < 66 then none
    else
      match pyIntHex (pyDrop2 data) with
      | none => none
      | some amount_wei =>
        match to_checksum_address from_addr, to_checksum_address to_addr with
        | some f, some t =>
            some (f, t, (amount_wei : ℚ) / 10 ^ CONTRACT_DECIMALS)
        | _, _ => none

/-- `EventDecoder.decode_pair_created`: `(token0, token1, pair_address)` or
`None`.  The pair address is the last 40 characters of the raw `data` field
(`0x` prefix included in the length check `len(data) < 42`). -/
def decode_pair_created (log : RawLog) : Option (String × String × String) :=
  let topics := log.topics
  if topics.length < 3 then none
  else
    let token0 := topicAddress (topics.getD 1 "")
    let token1 := topicAddress (topics.getD 2 "")
    let data := log.data
    if data.data.length < 42 then none
    else
      let pair_address := hexPrefix (pyLast 40 data)
      match to_checksum_address token0, to_checksum_address token1,
          to_checksum_address pair_address with
      | some t0, some t1, some pa => some (t0, t1, pa)
      | _, _, _ => none

/-- `EventDecoder.decode_mint_event` (Uniswap V2 Mint): `(amount0, amount1)`
scaled by a fixed 18 decimals, or `None`. -/
def decode_mint_event (log : RawLog) : Option (ℚ × ℚ) :=
  let data := pyDrop2 log.data
  if data.data.length < 128 then none
  else
    match pyIntHex (pySlice data 0 64), pyIntHex (pySlice data 64 128) with
    | some amount0_wei, some amount1_wei =>
        some ((amount0_wei : ℚ) / 10 ^ 18, (amount1_wei : ℚ) / 10 ^ 18)
    | _, _ => none

/-- `EventDecoder.decode_mint_v3_event` (Uniswap V3 Mint): `(amount0, amount1)`
from the 3rd and 4th packed words, or `None`. -/
def decode_mint_v3_event (log : RawLog) : Option (ℚ × ℚ) :=
  let topics := log.topics
  if topics.length < 4 then none
  else
    let data := pyDrop2 log.data
    if data.data.length < 256 then none
    else
      match pyIntHex (pySlice data 128 192), pyIntHex (pySlice data 192 256) with
      | some amount0_wei, some amount1_wei =>
          some ((amount0_wei : ℚ) / 10 ^ 18, (amount1_wei : ℚ) / 10 ^ 18)
      | _, _ => none

/-- `EventDecoder.decode_pool_created_v3`:
`(token0, token1, pool_address, fee)` or `None`. -/
def decode_pool_created_v3 (log : RawLog) :
    Option (String × String × String × Nat) :=
  let topics := log.topics
  if topics.length < 3 then none
  else
    let token0 := topicAddress (topics.getD 1 "")
    let token1 := topicAddress (topics.getD 2 "")
    let data := pyDrop2 log.data
    if data.data.length < 128 then none
    else
      match pyIntHex (pySlice data 0 64) with
      | none => none
      | some fee =>
        let pool_address := hexPrefix (pySlice data 88 128)
        match to_checksum_address token0, to_checksum_address token1,
            to_checksum_address pool_address with
        | some t0, some t1, some pa => some (t0, t1, pa, fee)
        | _, _, _ => none

/-- `EventDecoder.decode_swap_v2_event`:
`(sender, to, amount0_in, amount1_in, amount0_out, amount1_out)` (raw
unsigned words) or `None`. -/
def decode_swap_v2_event (log : RawLog) :
    Option (String × String × Nat × Nat × Nat × Nat) :=
  let topics := log.topics
  if topics.length < 3 then none
  else
    let sender := topicAddress (topics.getD 1 "")
    let to_a := topicAddress (topics.getD 2 "")
    let data := pyDrop2 log.data
    if data.data.length < 256 then none
    else
      match pyIntHex (pySlice data 0 64), pyIntHex (pySlice data 64 128),
          pyIntHex (pySlice data 128 192), pyIntHex (pySlice data 192 256) with
      | some a0in, some a1in, some a0out, some a1out =>
        match to_checksum_address sender, to_checksum_address to_a with
        | some s, some t => some (s, t, a0in, a1in, a0out, a1out)
        | _, _ => none
      | _, _, _, _ => none

/-- Two's-complement recovery of `decode_swap_v3_event`:
`w if w < 2**255 else w - 2**256`. -/
def signedWord (w : Nat) : ℤ :=
  if w < 2 ^ 255 then (w : ℤ) else (w : ℤ) - 2 ^ 256

/-- `EventDecoder.decode_swap_v3_event`:
`(sender, recipient, abs(amount0), abs(amount1), sqrt_price_x96, liquidity)`
or `None`; the amounts go through two's-complement recovery and `abs`. -/
def decode_swap_v3_event (log : RawLog) :
    Option (String × String × ℤ × ℤ × Nat × Nat) :=
  let topics := log.topics
  if topics.length < 3 then none
  else
    let sender := topicAddress (topics.getD 1 "")
    let recipient := topicAddress (topics.getD 2 "")
    let data := pyDrop2 log.data
    if data.data.length < 256 then none
    else
      match pyIntHex (pySlice data 0 64), pyIntHex (pySlice data 64 128),
          pyIntHex (pySlice data 128 192), pyIntHex (pySlice data 192 256) with
      | some amount0_raw, some amount1_raw, some sqrt_price_x96, some liquidity =>
        let amount0 := signedWord amount0_raw
        let amount1 := signedWord amount1_raw
        match to_checksum_address sender, to_checksum_address recipient with
        | some s, some r => some (s, r, |amount0|, |amount1|, sqrt_price_x96, liquidity)
        | _, _ => none
      | _, _, _, _ => none

/-- `EventDecoder.decode_burn_event` (Uniswap V2 Burn): `(amount0, amount1)`
scaled by a fixed 18 decimals, or `None`. -/
def decode_burn_event (log : RawLog) : Option (ℚ × ℚ) :=
  let data := pyDrop2 log.data
  if data.data.length < 128 then none
  else
    match pyIntHex (pySlice data 0 64), pyIntHex (pySlice data 64 128) with
    | some amount0_wei, some amount1_wei =>
        some ((amount0_wei : ℚ) / 10 ^ 18, (amount1_wei : ℚ) / 10 ^ 18)
    | _, _ => none

/-! ### PoolRegistry (`src/core/pool_tracker.py`, class `PoolTracker`)

`self.pools : Dict[str, Dict]` is modelled as an insertion-ordered
association list; assignment to an existing key replaces the value in place,
assignment to a fresh key appends. -/

/-- One entry of `self.pools` (`datetime.now()` becomes the `created_at`
clock value passed to `add_pool`). -/
structure Pool where
  address : String
  token0 : String
  token1 : String
  version : String
  has_liquidity : Bool
  first_mint : Option String
  first_swap : Option String
  created_at : Nat
deriving Repr, DecidableEq

abbrev PoolTracker := List (String × Pool)

/-- `self.pools.get(k)`. -/
def lookupKey (k : String) : PoolTracker → Option Pool
  | [] => none
  | (k', v) :: rest => if k' = k then some v else lookupKey k rest

/-- In-place mutation of the dict stored under `k` (Python dict values are
updated through the reference returned by `get`). -/
def updateKey (k : String) (f : Pool → Pool) : PoolTracker → PoolTracker
  | [] => []
  | (k', v) :: rest =>
      if k' = k then (k', f v) :: updateKey k f rest
      else (k', v) :: updateKey k f rest

/-- Dict assignment `self.pools[k] = v`: replaces in place when the key
exists, appends otherwise. -/
def insertKey (k : String) (v : Pool) (tr : PoolTracker) : PoolTracker :=
  if (lookupKey k tr).isSome then updateKey k (fun _ => v) tr
  else tr ++ [(k, v)]

/-- The dict literal built by `PoolTracker.add_pool`. -/
def fresh_pool (pool_address token0 token1 version : String) (now : Nat) : Pool :=
  { address := pool_address, token0 := token0, token1 := token1,
    version := version, has_liquidity := false, first_mint := none,
    first_swap := none, created_at := now }

/-- `PoolTracker.add_pool`: `self.pools[pool_address.lower()] = {...}` —
note the assignment is UNCONDITIONAL, an existing entry is overwritten. -/
def add_pool (tr : PoolTracker) (pool_address token0 token1 version : String)
    (now : Nat) : PoolTracker :=
  insertKey (pyLower pool_address)
    (fresh_pool pool_address token0 token1 version now) tr

/-- `PoolTracker.get_pool_info`: `self.pools.get(pool_address.lower())`. -/
def get_pool_info (tr : PoolTracker) (pool_address : String) : Option Pool :=
  lookupKey (pyLower pool_address) tr

/-- Python truthiness of the milestone fields: `None` and `""` are falsy. -/
def pyTruthy : Option String → Bool
  | none => false
  | some s => !s.isEmpty

/-- `PoolTracker.mark_liquidity_added`: sets `has_liquidity=True` and writes
`first_mint` only when it is currently falsy; no-op on unknown pools.
`amount0`/`amount1` are accepted and ignored, as in the source. -/
def mark_liquidity_added (tr : PoolTracker) (pool_address tx_hash : String)
    (_amount0 _amount1 : ℚ) : PoolTracker :=
  match get_pool_info tr pool_address with
  | none => tr
  | some _ =>
      updateKey (pyLower pool_address)
        (fun p =>
          { p with has_liquidity := true,
                   first_mint :=
                     if pyTruthy p.first_mint then p.first_mint
                     else some tx_hash }) tr

/-- `PoolTracker.mark_first_swap`: returns `True` and records `tx_hash` when
the pool exists and `first_swap` is falsy; `False` (state unchanged)
otherwise.  The mutated registry is returned alongside the flag. -/
def mark_first_swap (tr : PoolTracker) (pool_address tx_hash : String) :
    Bool × PoolTracker :=
  match get_pool_info tr pool_address with
  | some pool =>
      if pyTruthy pool.first_swap then (false, tr)
      else
        (true,
          updateKey (pyLower pool_address)
            (fun p => { p with first_swap := some tx_hash }) tr)
  | none => (false, tr)

/-! ### TransactionClassifier (`src/core/transaction_classifier.py`)

`TransactionClassifier.__init__` lowercases the monitored contract address;
the lowered address is threaded explicitly where a method uses it. -/

/-- `TransactionClassifier.classify_transaction_type`: fixed first-match-wins
precedence over `(from, to, pool_info)`. -/
def classify_transaction_type (from_addr to_addr : String)
    (pool_info : Option Pool) : String × String :=
  let from_lower := pyLower from_addr
  let to_lower := pyLower to_addr
  if from_lower = pyLower ZERO_ADDRESS then
    ("🖨️ TOKEN MINT", "New tokens minted")
  else if to_lower = pyLower ZERO_ADDRESS ∨ to_lower = pyLower BURN_ADDRESS then
    ("🔥 TOKEN BURN", "Tokens burned")
  else
    match pool_info with
    | some pi =>
        if pi.has_liquidity then ("🏊 POOL ACTIVITY", "Pool trading activity")
        else ("🏖️ POOL SETUP", "Pool initialisation")
    | none =>
        if from_lower ∈ DEX_ROUTERS ∨ to_lower ∈ DEX_ROUTERS then
          ("🔄 DEX SWAP", "DEX swap executed")
        else if from_lower ∈ CEX_ADDRESSES then
          ("🏦 CEX WITHDRAW", "Withdrawal from CEX")
        else if to_lower ∈ CEX_ADDRESSES then
          ("🏦 CEX DEPOSIT", "Deposit to CEX")
        else
          ("🔄 TRANSFER", "Default transfer")

/-- `TransactionClassifier.find_related_pool`: first registered pool whose
address matches `from` or `to` (case-insensitively). -/
def find_related_pool (from_addr to_addr : String) (tr : PoolTracker) :
    Option Pool :=
  let from_lower := pyLower from_addr
  let to_lower := pyLower to_addr
  (tr.map Prod.snd).find?
    (fun p => pyLower p.address == from_lower || pyLower p.address == to_lower)

/-- `TransactionClassifier.assess_liquidity_quality`. -/
def assess_liquidity_quality (token_amount : ℚ) : String × String × String :=
  if MIN_LIQUIDITY_THRESHOLD ≤ token_amount then
    ("🟢", "Substantial", "✅ Trading viable")
  else
    ("🟡", "Minimal", "⚠️ Trading possible but limited")

/-- `TransactionClassifier.is_contract_involved` (`contract_address` is the
pre-lowercased field of the classifier instance). -/
def is_contract_involved (contract_address token0 token1 : String) : Bool :=
  pyLower token0 == contract_address || pyLower token1 == contract_address

/-! ### IngestionOrchestrator event handlers (`src/core/eth_spider.py`)

`SpiderBot.__init__` sets `contract_address = ERC20_CONTRACT_ADDRESS.lower()`
and an empty `PoolTracker`.  Each handler is modelled as a pure step
`SpiderState → RawLog → SpiderState × List Notification`: the returned state
is the mutated registry and the list collects the Telegram calls made. -/

structure SpiderState where
  contract_address : String
  pool_tracker : PoolTracker
deriving Repr, DecidableEq

/-- The Telegram notification calls of `SpiderBot`, as inert records. -/
inductive Notification where
  | transfer_note (tx_type description : String) (token_amount : ℚ)
      (from_addr to_addr tx_hash : String) (related_pool : Option Pool)
  | token_burn (amount : ℚ) (from_addr tx_hash : String)
  | swap_note (pool_address : String) (token_amount : ℚ)
      (sender recipient tx_hash : String) (is_first_swap : Bool)
  | liquidity_added (status_emoji status_text pool_address : String)
      (token_amount other_amount : ℚ) (tradeable_text tx_hash : String)
  | pool_created (pair_address tx_hash : String)
  | burn_note (pool_address : String) (token_amount other_amount : ℚ)
      (tx_hash : String)
deriving Repr, DecidableEq

/-- `SpiderBot._handle_transfer`: skips logs of other contracts, decodes,
applies the token threshold, short-circuits burn-address and DEX-router
destinations, and otherwise classifies and notifies. -/
def handle_transfer (st : SpiderState) (log : RawLog) :
    SpiderState × List Notification :=
  if pyLower log.address ≠ st.contract_address then (st, [])
  else
    match decode_transfer log with
    | none => (st, [])
    | some (from_addr, to_addr, amount) =>
      if amount < MIN_TOKENS_THRESHOLD then (st, [])
      else if pyLower to_addr = pyLower ZERO_ADDRESS ∨
          pyLower to_addr = pyLower BURN_ADDRESS then
        (st, [Notification.token_burn amount from_addr log.transactionHash])
      else if pyLower to_addr ∈ DEX_ROUTERS.map pyLower then
        (st, [Notification.swap_note "DEX Router" amount from_addr "Unknown"
                log.transactionHash false])
      else
        let related_pool := find_related_pool from_addr to_addr st.pool_tracker
        let tx := classify_transaction_type from_addr to_addr related_pool
        (st, [Notification.transfer_note tx.1 tx.2 amount from_addr to_addr
                log.transactionHash related_pool])

/-- `SpiderBot._handle_mint_v2`: known pool + decode + threshold, then
`mark_liquidity_added` and a liquidity notification. -/
def handle_mint_v2 (st : SpiderState) (log : RawLog) :
    SpiderState × List Notification :=
  let pool_addr := pyLower log.address
  match get_pool_info st.pool_tracker pool_addr with
  | none => (st, [])
  | some pool_info =>
    match decode_mint_event log with
    | none => (st, [])
    | some (amount0, amount1) =>
      let token_amount :=
        if pyLower pool_info.token0 = st.contract_address then amount0 else amount1
      let other_amount :=
        if pyLower pool_info.token0 = st.contract_address then amount1 else amount0
      if token_amount < MIN_TOKENS_THRESHOLD then (st, [])
      else
        let tx_hash := log.transactionHash
        let tr := mark_liquidity_added st.pool_tracker pool_addr tx_hash amount0 amount1
        let q := assess_liquidity_quality token_amount
        ({ st with pool_tracker := tr },
         [Notification.liquidity_added q.1 q.2.1 pool_addr token_amount
            other_amount q.2.2 tx_hash])

/-- `SpiderBot._handle_swap_v2`: known pool + decode, net signed amount of the
monitored token, magnitude threshold, then `mark_first_swap` and a swap
notification. -/
def handle_swap_v2 (st : SpiderState) (log : RawLog) :
    SpiderState × List Notification :=
  let pool_addr := pyLower log.address
  match get_pool_info st.pool_tracker pool_addr with
  | none => (st, [])
  | some pool_info =>
    match decode_swap_v2_event log with
    | none => (st, [])
    | some (sender, to_a, a0_in, a1_in, a0_out, a1_out) =>
      let amount : ℚ :=
        if pyLower pool_info.token0 = st.contract_address then
          (((a0_in : ℤ) - (a0_out : ℤ) : ℤ) : ℚ) / 10 ^ CONTRACT_DECIMALS
        else
          (((a1_in : ℤ) - (a1_out : ℤ) : ℤ) : ℚ) / 10 ^ CONTRACT_DECIMALS
      if |amount| < MIN_TOKENS_THRESHOLD then (st, [])
      else
        let res := mark_first_swap st.pool_tracker pool_addr log.transactionHash
        ({ st with pool_tracker := res.2 },
         [Notification.swap_note pool_addr |amount| sender to_a
            log.transactionHash res.1])

/-! ### Registry operation sequences

Machinery to quantify over arbitrary sequences of the three mutating
`PoolTracker` operations, as the invariant claims require. -/

/-- One call to a mutating `PoolTracker` operation. -/
inductive RegOp where
  | addp (pool_address token0 token1 version : String) (now : Nat)
  | liq (pool_address tx_hash : String) (amount0 amount1 : ℚ)
  | swp (pool_address tx_hash : String)
deriving Repr, DecidableEq

/-- Execute one registry operation (the Bool result of `mark_first_swap` is
discarded here; `markSwapRun` keeps it where a claim needs it). -/
def applyOp (tr : PoolTracker) : RegOp → PoolTracker
  | .addp a t0 t1 v now => add_pool tr a t0 t1 v now
  | .liq a tx a0 a1 => mark_liquidity_added tr a tx a0 a1
  | .swp a tx => (mark_first_swap tr a tx).2

/-- Execute a sequence of registry operations. -/
def runOps (tr : PoolTracker) (ops : List RegOp) : PoolTracker :=
  ops.foldl applyOp tr

/-- Whether an operation is an `add_pool` call. -/
def isAddOp : RegOp → Bool
  | .addp .. => true
  | _ => false

/-- Whether an operation is an `add_pool` call registering the key `k`. -/
def addsKey (k : String) : RegOp → Bool
  | .addp a _ _ _ _ => pyLower a == k
  | _ => false

/-- A sequence of `mark_first_swap` calls for one address, collecting the
returned flags and the final registry. -/
def markSwapRun (tr : PoolTracker) (addr : String) :
    List String → List Bool × PoolTracker
  | [] => ([], tr)
  | tx :: rest =>
      let r := mark_first_swap tr addr tx
      let rr := markSwapRun r.2 addr rest
      (r.1 :: rr.1, rr.2)

/-- Number of registry entries stored under key `k`. -/
def countKey (k : String) (tr : PoolTracker) : Nat :=
  tr.countP (fun e => e.1 == k)

/-- Well-formedness of the association-list model: keys are pairwise
distinct, as they necessarily are for a Python dict. -/
abbrev KeysNodup (tr : PoolTracker) : Prop := (tr.map Prod.fst).Nodup

/-- The spec's pool-entry evolution invariant between two snapshots `p`, `q`
of the entry: identity fields frozen, `has_liquidity` monotone, nonempty
milestone fields never overwritten. -/
def PoolEvolves (p q : Pool) : Prop :=
  q.address = p.address ∧ q.token0 = p.token0 ∧ q.token1 = p.token1 ∧
    q.version = p.version ∧ q.created_at = p.created_at ∧
    (p.has_liquidity = true → q.has_liquidity = true) ∧
    (∀ s, p.first_mint = some s → s ≠ "" → q.first_mint = some s) ∧
    (∀ s, p.first_swap = some s → s ≠ "" → q.first_swap = some s)

/-- A topic string from which `"0x" + t[-40:]` yields a parseable address:
its last 40 characters are exactly 40 hex digits. -/
abbrev validAddrTail (t : String) : Prop :=
  (pyLast 40 t).data.length = 40 ∧ (pyLast 40 t).data.all isHexDigitChar = true

/-- The canonical (lowercase) checksummed address the decoders return for a
topic, `to_checksum_address("0x" + t[-40:])`. -/
def canonTopicAddress (t : String) : String :=
  ⟨'0' :: 'x' :: (pyLast 40 t).data.map Char.toLower⟩

/-- The `i`-th 32-byte word of a stripped data payload,
`int(data[64*i : 64*i + 64], 16)`. -/
def dataWord (ds : List Char) (i : Nat) : Nat :=
  hexListVal ((ds.drop (64 * i)).take 64)

/-! ### Concrete test vectors (inputs for witnesses and counterexamples) -/

/-- Topic whose trailing 20 bytes are the zero address. -/
def zeroTopic : String := ⟨'0' :: 'x' :: List.replicate 64 '0'⟩

/-- Topic whose trailing 20 bytes are the designated burn address. -/
def burnTopic : String :=
  ⟨'0' :: 'x' ::
    (List.replicate 24 '0' ++ "000000000000000000000000000000000000dead".data)⟩

/-- Topic carrying an ordinary wallet address. -/
def aliceTopic : String :=
  "0x000000000000000000000000aabbccddeeff00112233445566778899aabbccdd"

/-- Topic carrying a second ordinary wallet address. -/
def bobTopic : String :=
  "0x0000000000000000000000001122334455667788990011223344556677889900"

/-- 32-byte data word encoding `16 ^ 63` raw units (about `7.2e57` tokens at
18 decimals, far above every threshold). -/
def bigWordData : String := ⟨'0' :: 'x' :: '1' :: List.replicate 63 '0'⟩

/-- 32-byte data word encoding 1 raw unit (`1e-18` tokens, below every
threshold). -/
def oneWordData : String := ⟨'0' :: 'x' :: (List.replicate 63 '0' ++ ['1'])⟩

/-- Hex tail of `twoWordData`: first word 1, second word 0. -/
def twoWordDataTail : List Char :=
  List.replicate 63 '0' ++ ['1'] ++ List.replicate 64 '0'

/-- Two-word data payload whose first word is 1 but whose full hex value is
`16 ^ 64`: separates "first word" from "whole blob" parsing. -/
def twoWordData : String := ⟨'0' :: 'x' :: twoWordDataTail⟩

/-- Hex tail of `swapV3Data`: word0 all-ones (`2^256 - 1`), word1 = 5,
word2 = word3 = 0. -/
def swapV3DataTail : List Char :=
  List.replicate 64 'f' ++ (List.replicate 63 '0' ++ ['5']) ++
    List.replicate 64 '0' ++ List.replicate 64 '0'

/-- SwapV3 data payload with tail `swapV3DataTail`. -/
def swapV3Data : String := ⟨'0' :: 'x' :: swapV3DataTail⟩

/-- V2 swap data payload with all four words tiny:
`amount0_in = 2`, `amount1_in = 0`, `amount0_out = 1`, `amount1_out = 0`. -/
def smallSwapV2Data : String :=
  ⟨'0' :: 'x' ::
    ((List.replicate 63 '0' ++ ['2']) ++ List.replicate 64 '0' ++
      (List.replicate 63 '0' ++ ['1']) ++ List.replicate 64 '0')⟩

/-- V2 mint data payload with both amounts equal to 1 raw unit. -/
def smallMintData : String :=
  ⟨'0' :: 'x' ::
    ((List.replicate 63 '0' ++ ['1']) ++ (List.replicate 63 '0' ++ ['1']))⟩

/-- A RawLog violating every decoder's constraints. -/
def emptyLog : RawLog :=
  { address := "", topics := [], data := "", transactionHash := "" }

/-- The initial orchestrator state built by `SpiderBot.__init__` (lowercased
monitored contract, empty registry). -/
def initialSpiderState : SpiderState :=
  { contract_address := pyLower ERC20_CONTRACT_ADDRESS, pool_tracker := [] }

/-- A pool address / its registered pool used by the stateful witnesses. -/
def poolAddrA : String := "0x00112233445566778899aabbccddeeff00112233"

/-- A second pool address, never registered. -/
def poolAddrB : String := "0x99887766554433221100ffeeddccbbaa99887766"

/-- Registry holding exactly the pool `poolAddrA`, fresh from `add_pool`. -/
def trackerA : PoolTracker :=
  add_pool [] poolAddrA ERC20_CONTRACT_ADDRESS poolAddrB "V2" 0

/-- Orchestrator state with `trackerA` as registry. -/
def spiderStateA : SpiderState :=
  { contract_address := pyLower ERC20_CONTRACT_ADDRESS,
    pool_tracker := trackerA }

/-- Transfer log of the monitored token: `from` = zero address, `to` = an
ordinary wallet, amount far above threshold. -/
def mintTransferLog : RawLog :=
  { address := ERC20_CONTRACT_ADDRESS,
    topics := ["0xsig", zeroTopic, aliceTopic],
    data := bigWordData, transactionHash := "0xtx1" }

/-- Transfer log of the monitored token: `from` = zero address, `to` = the
burn address, amount far above threshold. -/
def zeroToBurnLog : RawLog :=
  { address := ERC20_CONTRACT_ADDRESS,
    topics := ["0xsig", zeroTopic, burnTopic],
    data := bigWordData, transactionHash := "0xtx2" }

/-- Transfer log of the monitored token with a sub-threshold amount. -/
def smallTransferLog : RawLog :=
  { address := ERC20_CONTRACT_ADDRESS,
    topics := ["0xsig", aliceTopic, bobTopic],
    data := oneWordData, transactionHash := "0xtx3" }

/-- Transfer-shaped log emitted by a contract other than the monitored
token. -/
def foreignTransferLog : RawLog :=
  { address := poolAddrB,
    topics := ["0xsig", aliceTopic, bobTopic],
    data := bigWordData, transactionHash := "0xtx4" }

/-- Transfer log with two data words: first word 1, full value `16 ^ 64`. -/
def twoWordTransferLog : RawLog :=
  { address := ERC20_CONTRACT_ADDRESS,
    topics := ["0xsig", aliceTopic, bobTopic],
    data := twoWordData, transactionHash := "0xtx5" }

/-- SwapV3 log whose word0 is the all-ones word and word1 is 5. -/
def swapV3Log : RawLog :=
  { address := poolAddrA,
    topics := ["0xsig", aliceTopic, bobTopic],
    data := swapV3Data, transactionHash := "0xtx6" }

/-- V2 mint log on `poolAddrA` with a tiny amount. -/
def smallMintLog : RawLog :=
  { address := poolAddrA,
    topics := ["0xsig", aliceTopic],
    data := smallMintData, transactionHash := "0xtx7" }

/-- V2 swap log on `poolAddrA` with a tiny net amount. -/
def smallSwapLog : RawLog :=
  { address := poolAddrA,
    topics := ["0xsig", aliceTopic, bobTopic],
    data := smallSwapV2Data, transactionHash := "0xtx8" }

/-! ### Association-list lemmas for the registry model -/

theorem lookupKey_updateKey_self (k : String) (f : Pool → Pool)
    (tr : PoolTracker) :
    lookupKey k (updateKey k f tr) = (lookupKey k tr).map f := by
  induction tr with
  | nil => rfl
  | cons e rest ih =>
      obtain ⟨k1, v⟩ := e
      by_cases h1 : k1 = k <;> simp [lookupKey, updateKey, h1, ih]

theorem lookupKey_updateKey_ne (k k' : String) (h : k' ≠ k)
    (f : Pool → Pool) (tr : PoolTracker) :
    lookupKey k (updateKey k' f tr) = lookupKey k tr := by
  induction tr with
  | nil => rfl
  | cons e rest ih =>
      obtain ⟨k1, v⟩ := e
      by_cases h1 : k1 = k' <;> by_cases h2 : k1 = k
      · exact absurd (h1.symm.trans h2) h
      · simp [lookupKey, updateKey, h1, h2, ih, h]
      · subst h2
        simp [updateKey, lookupKey, h1, ih]
      · simp [lookupKey, updateKey, h1, h2, ih, h]

theorem lookupKey_append (k : String) (tr l : PoolTracker) :
    lookupKey k (tr ++ l) = (lookupKey k tr).or (lookupKey k l) := by
  induction tr with
  | nil => simp [lookupKey]
  | cons e rest ih =>
      obtain ⟨k1, v⟩ := e
      by_cases h : k1 = k <;> simp [lookupKey, h, ih]

theorem lookupKey_insertKey (k k' : String) (v : Pool) (tr : PoolTracker) :
    lookupKey k (insertKey k' v tr) =
      if k' = k then some v else lookupKey k tr := by
  unfold insertKey
  by_cases hs : (lookupKey k' tr).isSome
  · rw [if_pos hs]
    by_cases h : k' = k
    · subst h
      rw [lookupKey_updateKey_self]
      obtain ⟨p, hp⟩ := Option.isSome_iff_exists.mp hs
      simp [hp]
    · rw [lookupKey_updateKey_ne _ _ h, if_neg h]
  · rw [if_neg hs, lookupKey_append]
    by_cases h : k' = k
    · subst h
      rw [Option.not_isSome_iff_eq_none.mp hs]
      simp [lookupKey]
    · cases hl : lookupKey k tr <;> simp [lookupKey, h, hl]

theorem countKey_updateKey (k k' : String) (f : Pool → Pool)
    (tr : PoolTracker) :
    countKey k (updateKey k' f tr) = countKey k tr := by
  induction tr with
  | nil => simp [countKey, updateKey]
  | cons e rest ih =>
      obtain ⟨k1, v⟩ := e
      by_cases h : k1 = k' <;>
        simp [countKey, updateKey, h, List.countP_cons] at ih ⊢ <;> omega

theorem lookupKey_eq_none_of_not_mem (k : String) (tr : PoolTracker)
    (h : k ∉ tr.map Prod.fst) : lookupKey k tr = none := by
  induction tr with
  | nil => rfl
  | cons e rest ih =>
      obtain ⟨k1, v⟩ := e
      rw [List.map_cons, List.mem_cons] at h
      push_neg at h
      simp [lookupKey, Ne.symm h.1, ih h.2]

theorem not_mem_of_lookupKey_eq_none (k : String) (tr : PoolTracker)
    (h : lookupKey k tr = none) : k ∉ tr.map Prod.fst := by
  induction tr with
  | nil => simp
  | cons e rest ih =>
      obtain ⟨k1, v⟩ := e
      by_cases h1 : k1 = k
      · simp [lookupKey, h1] at h
      · simp only [lookupKey, if_neg h1] at h
        rw [List.map_cons, List.mem_cons]
        push_neg
        exact ⟨Ne.symm h1, ih h⟩

theorem countKey_eq_zero_of_not_mem (k : String) (tr : PoolTracker)
    (h : k ∉ tr.map Prod.fst) : countKey k tr = 0 := by
  induction tr with
  | nil => rfl
  | cons e rest ih =>
      obtain ⟨k1, v⟩ := e
      rw [List.map_cons, List.mem_cons] at h
      push_neg at h
      unfold countKey at ih ⊢
      rw [List.countP_cons, ih h.2]
      simp [Ne.symm h.1]

theorem countKey_eq_one_of_nodup (k : String) (tr : PoolTracker)
    (hnd : KeysNodup tr) (hs : (lookupKey k tr).isSome) :
    countKey k tr = 1 := by
  induction tr with
  | nil => simp [lookupKey] at hs
  | cons e rest ih =>
      obtain ⟨k1, v⟩ := e
      rw [KeysNodup, List.map_cons, List.nodup_cons] at hnd
      by_cases h : k1 = k
      · subst h
        have h0 : countKey k1 rest = 0 :=
          countKey_eq_zero_of_not_mem _ _ hnd.1
        unfold countKey at h0 ⊢
        rw [List.countP_cons, h0]
        simp
      · simp only [lookupKey, if_neg h] at hs
        have h1 := ih hnd.2 hs
        unfold countKey at h1 ⊢
        rw [List.countP_cons, h1]
        simp [h]

/-! ## Claim C1 — `add_pool` idempotency

The claim fails on the code: `PoolTracker.add_pool` assigns unconditionally
(`self.pools[key] = {...}`), so a duplicate registration resets
`has_liquidity` to `False` and both milestone fields to `None`. -/

/-- C1 counterexample: register `poolAddrA`, mark liquidity added
(`has_liquidity = true`), then call `add_pool` a second time with the same
address.  The second call is not a no-op: `has_liquidity` is reset to
`false`, contradicting the claim's "hasLiquidity … unchanged from before the
second call". -/
theorem addPool_not_idempotent_cex :
    (get_pool_info (mark_liquidity_added trackerA poolAddrA "0xm1" 1 2)
        poolAddrA).map Pool.has_liquidity = some true ∧
    (get_pool_info
        (add_pool (mark_liquidity_added trackerA poolAddrA "0xm1" 1 2)
          poolAddrA ERC20_CONTRACT_ADDRESS poolAddrB "V2" 1)
        poolAddrA).map Pool.has_liquidity = some false := by
  constructor <;> rfl

/-- C1 amended: every `add_pool` call — in particular a repeated one with an
address already in the registry — overwrites: afterwards there is exactly one
entry for that address and it is the freshly initialised record
(`has_liquidity = false`, `first_mint = first_swap = none`), rather than the
previously stored fields. -/
theorem addPool_overwrites (tr : PoolTracker) (a t0 t1 v : String) (now : Nat)
    (hnd : KeysNodup tr) :
    get_pool_info (add_pool tr a t0 t1 v now) a =
        some (fresh_pool a t0 t1 v now) ∧
    countKey (pyLower a) (add_pool tr a t0 t1 v now) = 1 := by
  constructor
  · unfold get_pool_info add_pool
    rw [lookupKey_insertKey]
    simp
  · unfold add_pool insertKey
    by_cases hs : (lookupKey (pyLower a) tr).isSome
    · rw [if_pos hs, countKey_updateKey]
      exact countKey_eq_one_of_nodup _ _ hnd hs
    · rw [if_neg hs]
      have h0 : countKey (pyLower a) tr = 0 :=
        countKey_eq_zero_of_not_mem _ _
          (not_mem_of_lookupKey_eq_none _ _
            (Option.not_isSome_iff_eq_none.mp hs))
      unfold countKey at h0 ⊢
      rw [List.countP_append, h0]
      simp

/-- C1 amended witness: the theorem applied to the registry already holding
`poolAddrA`. -/
theorem addPool_overwrites_witness :
    get_pool_info (add_pool trackerA poolAddrA "0xT0" "0xT1" "V3" 5)
        poolAddrA = some (fresh_pool poolAddrA "0xT0" "0xT1" "V3" 5) ∧
    countKey (pyLower poolAddrA)
        (add_pool trackerA poolAddrA "0xT0" "0xT1" "V3" 5) = 1 :=
  addPool_overwrites trackerA poolAddrA "0xT0" "0xT1" "V3" 5 (by decide)

/-! ### Lemmas about pool-entry evolution -/

theorem isEmpty_false_of_ne (s : String) (h : s ≠ "") : s.isEmpty = false := by
  cases he : s.isEmpty
  · rfl
  · exact absurd ((String.isEmpty_iff s).mp he) h

theorem poolEvolves_refl (p : Pool) : PoolEvolves p p := by
  unfold PoolEvolves
  refine ⟨rfl, rfl, rfl, rfl, rfl, fun h => h, ?_, ?_⟩ <;>
    exact fun s hs _ => hs

theorem poolEvolves_trans (p q r : Pool) (h1 : PoolEvolves p q)
    (h2 : PoolEvolves q r) : PoolEvolves p r := by
  obtain ⟨a1, b1, c1, d1, e1, f1, g1, i1⟩ := h1
  obtain ⟨a2, b2, c2, d2, e2, f2, g2, i2⟩ := h2
  exact ⟨a2.trans a1, b2.trans b1, c2.trans c1, d2.trans d1, e2.trans e1,
    fun h => f2 (f1 h),
    fun s hs hne => g2 s (g1 s hs hne) hne,
    fun s hs hne => i2 s (i1 s hs hne) hne⟩

/-- Single-step preservation: a `mark_liquidity_added` or `mark_first_swap`
call can only evolve an existing entry as `PoolEvolves` allows. -/
theorem applyOp_preserves (op : RegOp) (hop : isAddOp op = false)
    (tr : PoolTracker) (k : String) (p : Pool)
    (hp : lookupKey k tr = some p) :
    ∃ q, lookupKey k (applyOp tr op) = some q ∧ PoolEvolves p q := by
  cases op with
  | addp a t0 t1 v now => simp [isAddOp] at hop
  | liq a tx a0 a1 =>
      show ∃ q, lookupKey k (mark_liquidity_added tr a tx a0 a1) = some q ∧ _
      unfold mark_liquidity_added
      cases hg : get_pool_info tr a with
      | none => exact ⟨p, hp, poolEvolves_refl p⟩
      | some pool =>
          by_cases hk : pyLower a = k
          · subst hk
            unfold get_pool_info at hg
            rw [hg] at hp
            injection hp with hp
            subst hp
            refine ⟨_, by rw [lookupKey_updateKey_self, hg]; rfl, ?_⟩
            refine ⟨rfl, rfl, rfl, rfl, rfl, fun _ => rfl, ?_, ?_⟩
            · intro s hs hne
              simp only [hs, pyTruthy, isEmpty_false_of_ne s hne,
                Bool.not_false, if_true]
            · exact fun s hs _ => hs
          · exact ⟨p, by rw [lookupKey_updateKey_ne _ _ hk]; exact hp,
              poolEvolves_refl p⟩
  | swp a tx =>
      show ∃ q, lookupKey k (mark_first_swap tr a tx).2 = some q ∧ _
      unfold mark_first_swap
      cases hg : get_pool_info tr a with
      | none => exact ⟨p, hp, poolEvolves_refl p⟩
      | some pool =>
          dsimp only
          by_cases ht : pyTruthy pool.first_swap
          · rw [if_pos ht]
            exact ⟨p, hp, poolEvolves_refl p⟩
          · rw [if_neg ht]
            dsimp only
            by_cases hk : pyLower a = k
            · subst hk
              unfold get_pool_info at hg
              rw [hg] at hp
              injection hp with hp
              subst hp
              refine ⟨_, by rw [lookupKey_updateKey_self, hg]; rfl, ?_⟩
              refine ⟨rfl, rfl, rfl, rfl, rfl, fun h => h, fun s hs _ => hs, ?_⟩
              intro s hs hne
              rw [hs] at ht
              exact absurd (by simp [pyTruthy, isEmpty_false_of_ne s hne]) ht
            · exact ⟨p, by rw [lookupKey_updateKey_ne _ _ hk]; exact hp,
                poolEvolves_refl p⟩

/-! ## Claim C3 — registry invariant across operation sequences

As stated the claim quantifies over sequences including `add_pool`, and
fails: a repeated `add_pool` overwrites `token0`/`token1`/`version` and
resets `has_liquidity`.  For sequences of the two mark operations the
invariant holds. -/

/-- C3 counterexample: the operation sequence add → markLiquidity → add
(same address) changes `token0` and drives `has_liquidity` from `true` back
to `false`, violating both the frozen-fields and the monotonicity parts of
the claim. -/
theorem registry_invariant_cex :
    (get_pool_info
        (runOps [] [RegOp.addp poolAddrA ERC20_CONTRACT_ADDRESS poolAddrB "V2" 0,
          RegOp.liq poolAddrA "0xm1" 1 2]) poolAddrA).map
        (fun p => (p.token0, p.has_liquidity)) =
      some (ERC20_CONTRACT_ADDRESS, true) ∧
    (get_pool_info
        (runOps [] [RegOp.addp poolAddrA ERC20_CONTRACT_ADDRESS poolAddrB "V2" 0,
          RegOp.liq poolAddrA "0xm1" 1 2,
          RegOp.addp poolAddrA poolAddrB ERC20_CONTRACT_ADDRESS "V3" 1]) poolAddrA).map
        (fun p => (p.token0, p.has_liquidity)) =
      some (poolAddrB, false) := by
  constructor <;> rfl

/-- C3 amended: once a pool entry exists, any sequence of
`mark_liquidity_added` / `mark_first_swap` calls (i.e. excluding `add_pool`
re-registration, which overwrites the entry wholesale) keeps
`address`/`token0`/`token1`/`version`/`created_at` unchanged, moves
`has_liquidity` only from `false` to `true`, and never overwrites a nonempty
`first_mint` or `first_swap` (first-write-wins; the Python truthiness test
treats the empty string like `None`, hence the nonemptiness proviso). -/
theorem registry_marks_preserve (ops : List RegOp)
    (hops : ∀ op ∈ ops, isAddOp op = false) (tr : PoolTracker) (k : String)
    (p : Pool) (hp : lookupKey k tr = some p) :
    ∃ q, lookupKey k (runOps tr ops) = some q ∧ PoolEvolves p q := by
  induction ops generalizing tr p with
  | nil => exact ⟨p, hp, poolEvolves_refl p⟩
  | cons op rest ih =>
      obtain ⟨q, hq, hev⟩ :=
        applyOp_preserves op (hops op (by simp)) tr k p hp
      obtain ⟨r, hr, hev2⟩ :=
        ih (fun o ho => hops o (by simp [ho])) (applyOp tr op) q hq
      exact ⟨r, hr, poolEvolves_trans p q r hev hev2⟩

/-- C3 amended witness: a liquidity mark followed by a swap mark on the
registered pool evolves its entry within the invariant. -/
theorem registry_marks_preserve_witness :
    ∃ q, lookupKey (pyLower poolAddrA)
        (runOps trackerA
          [RegOp.liq poolAddrA "0xm1" 1 2, RegOp.swp poolAddrA "0xs1"]) =
        some q ∧
      PoolEvolves (fresh_pool poolAddrA ERC20_CONTRACT_ADDRESS poolAddrB "V2" 0) q :=
  registry_marks_preserve
    [RegOp.liq poolAddrA "0xm1" 1 2, RegOp.swp poolAddrA "0xs1"]
    (by intro op hop; fin_cases hop <;> rfl)
    trackerA (pyLower poolAddrA)
    (fresh_pool poolAddrA ERC20_CONTRACT_ADDRESS poolAddrB "V2" 0)
    (by rfl)

/-! ## Claim C7 — `mark_first_swap` returns true exactly once -/

theorem mark_first_swap_of_truthy (tr : PoolTracker) (addr tx : String)
    (p : Pool) (hp : lookupKey (pyLower addr) tr = some p)
    (ht : pyTruthy p.first_swap = true) :
    mark_first_swap tr addr tx = (false, tr) := by
  unfold mark_first_swap get_pool_info
  rw [hp]
  dsimp only
  rw [if_pos ht]

theorem markSwapRun_of_truthy (txs : List String) (tr : PoolTracker)
    (addr : String) (p : Pool) (hp : lookupKey (pyLower addr) tr = some p)
    (ht : pyTruthy p.first_swap = true) :
    markSwapRun tr addr txs = (List.replicate txs.length false, tr) := by
  induction txs with
  | nil => rfl
  | cons tx rest ih =>
      unfold markSwapRun
      rw [mark_first_swap_of_truthy tr addr tx p hp ht]
      dsimp only
      rw [ih]
      rw [List.length_cons, List.replicate_succ]

/-- C7: for a registered pool whose `first_swap` is unset, across any
sequence of `mark_first_swap` calls with a nonempty first transaction id,
exactly the first call returns `true` (and records that id); every later
call returns `false` and leaves `first_swap` unchanged.  (The nonemptiness
proviso exists because the source tests Python truthiness, under which an
empty-string transaction id — which the transport never produces — would
count as unset.) -/
theorem markFirstSwap_exactly_once (tr : PoolTracker) (addr tx : String)
    (rest : List String) (p : Pool)
    (hp : lookupKey (pyLower addr) tr = some p)
    (hunset : p.first_swap = none) (htx : tx ≠ "") :
    (markSwapRun tr addr (tx :: rest)).1 =
        true :: List.replicate rest.length false ∧
    (markSwapRun tr addr (tx :: rest)).1.count true = 1 ∧
    (lookupKey (pyLower addr) (markSwapRun tr addr (tx :: rest)).2).map
        Pool.first_swap = some (some tx) := by
  have hfirst : mark_first_swap tr addr tx =
      (true, updateKey (pyLower addr)
        (fun q => { q with first_swap := some tx }) tr) := by
    unfold mark_first_swap get_pool_info
    rw [hp]
    dsimp only
    rw [if_neg (by simp [hunset, pyTruthy])]
  set tr' := updateKey (pyLower addr)
    (fun q => { q with first_swap := some tx }) tr with htr'
  have hlook : lookupKey (pyLower addr) tr' =
      some { p with first_swap := some tx } := by
    rw [htr', lookupKey_updateKey_self, hp]
    rfl
  have htruthy :
      pyTruthy ({ p with first_swap := some tx } : Pool).first_swap = true := by
    simp [pyTruthy, isEmpty_false_of_ne tx htx]
  have hrun : markSwapRun tr' addr rest =
      (List.replicate rest.length false, tr') :=
    markSwapRun_of_truthy rest tr' addr _ hlook htruthy
  unfold markSwapRun
  rw [hfirst]
  dsimp only
  rw [hrun]
  dsimp only
  refine ⟨rfl, ?_, ?_⟩
  · simp [List.count_replicate]
  · rw [hlook]
    rfl

/-- C7 witness: three swap marks on the freshly registered pool yield
`[true, false, false]` and record the first transaction id. -/
theorem markFirstSwap_exactly_once_witness :
    (markSwapRun trackerA poolAddrA ["0xs1", "0xs2", "0xs3"]).1 =
        true :: List.replicate 2 false ∧
    (markSwapRun trackerA poolAddrA ["0xs1", "0xs2", "0xs3"]).1.count true = 1 ∧
    (lookupKey (pyLower poolAddrA)
        (markSwapRun trackerA poolAddrA ["0xs1", "0xs2", "0xs3"]).2).map
        Pool.first_swap = some (some "0xs1") :=
  markFirstSwap_exactly_once trackerA poolAddrA "0xs1" ["0xs2", "0xs3"]
    (fresh_pool poolAddrA ERC20_CONTRACT_ADDRESS poolAddrB "V2" 0)
    (by rfl) rfl (by decide)

/-! ## Claim C9 — case-insensitive pool lookup -/

theorem lookupKey_applyOp_none (op : RegOp) (k : String) (tr : PoolTracker)
    (hk : addsKey k op = false) (h : lookupKey k tr = none) :
    lookupKey k (applyOp tr op) = none := by
  cases op with
  | addp a t0 t1 v now =>
      have hne : pyLower a ≠ k := by
        simpa [addsKey] using hk
      show lookupKey k (add_pool tr a t0 t1 v now) = none
      unfold add_pool
      rw [lookupKey_insertKey, if_neg hne]
      exact h
  | liq a tx a0 a1 =>
      show lookupKey k (mark_liquidity_added tr a tx a0 a1) = none
      unfold mark_liquidity_added
      cases hg : get_pool_info tr a with
      | none => exact h
      | some pool =>
          dsimp only
          by_cases hak : pyLower a = k
          · subst hak
            rw [lookupKey_updateKey_self, h]
            rfl
          · rw [lookupKey_updateKey_ne _ _ hak]
            exact h
  | swp a tx =>
      show lookupKey k (mark_first_swap tr a tx).2 = none
      unfold mark_first_swap
      cases hg : get_pool_info tr a with
      | none => exact h
      | some pool =>
          dsimp only
          by_cases ht : pyTruthy pool.first_swap
          · rw [if_pos ht]
            exact h
          · rw [if_neg ht]
            dsimp only
            by_cases hak : pyLower a = k
            · subst hak
              rw [lookupKey_updateKey_self, h]
              rfl
            · rw [lookupKey_updateKey_ne _ _ hak]
              exact h

theorem lookupKey_runOps_none (ops : List RegOp) (k : String)
    (tr : PoolTracker) (hops : ∀ op ∈ ops, addsKey k op = false)
    (h : lookupKey k tr = none) : lookupKey k (runOps tr ops) = none := by
  induction ops generalizing tr with
  | nil => exact h
  | cons op rest ih =>
      exact ih _ (fun o ho => hops o (by simp [ho]))
        (lookupKey_applyOp_none op k tr (hops op (by simp)) h)

/-- C9: pool lookup is case-insensitive — two address strings agreeing up to
letter case resolve to the same registry entry; an address registered by
`add_pool` is retrieved under any casing as the stored entry; and an address
no `add_pool` call of the operation sequence ever registered (under any
casing) resolves to nothing. -/
theorem getPool_case_insensitive :
    (∀ (tr : PoolTracker) (a a' : String), pyLower a = pyLower a' →
        get_pool_info tr a = get_pool_info tr a') ∧
    (∀ (tr : PoolTracker) (a t0 t1 v : String) (now : Nat) (a' : String),
        pyLower a' = pyLower a →
        get_pool_info (add_pool tr a t0 t1 v now) a' =
          some (fresh_pool a t0 t1 v now)) ∧
    (∀ (ops : List RegOp) (a : String),
        (∀ op ∈ ops, addsKey (pyLower a) op = false) →
        get_pool_info (runOps [] ops) a = none) := by
  refine ⟨?_, ?_, ?_⟩
  · intro tr a a' hl
    unfold get_pool_info
    rw [hl]
  · intro tr a t0 t1 v now a' hl
    unfold get_pool_info add_pool
    rw [hl, lookupKey_insertKey, if_pos rfl]
  · intro ops a hops
    exact lookupKey_runOps_none ops (pyLower a) [] hops rfl

/-- C9 witness: a checksum-cased variant of `poolAddrA` retrieves the entry
stored under the lowercase key, and `poolAddrB` — never registered by the
concrete operation sequence — resolves to nothing. -/
theorem getPool_case_insensitive_witness :
    get_pool_info trackerA "0x00112233445566778899AABBccddeeff00112233" =
        get_pool_info trackerA poolAddrA ∧
    get_pool_info
        (add_pool [] poolAddrA ERC20_CONTRACT_ADDRESS poolAddrB "V2" 0)
        "0x00112233445566778899AABBCCDDEEFF00112233" =
      some (fresh_pool poolAddrA ERC20_CONTRACT_ADDRESS poolAddrB "V2" 0) ∧
    get_pool_info
        (runOps []
          [RegOp.addp poolAddrA ERC20_CONTRACT_ADDRESS poolAddrB "V2" 0,
            RegOp.swp poolAddrA "0xs1"]) poolAddrB = none :=
  ⟨getPool_case_insensitive.1 trackerA
      "0x00112233445566778899AABBccddeeff00112233" poolAddrA (by decide),
    getPool_case_insensitive.2.1 [] poolAddrA ERC20_CONTRACT_ADDRESS
      poolAddrB "V2" 0 "0x00112233445566778899AABBCCDDEEFF00112233" (by decide),
    getPool_case_insensitive.2.2
      [RegOp.addp poolAddrA ERC20_CONTRACT_ADDRESS poolAddrB "V2" 0,
        RegOp.swp poolAddrA "0xs1"] poolAddrB
      (by intro op hop; fin_cases hop <;> decide)⟩

/-! ## Claim C6 — decoder totality

In this embedding every decoder is a total pure function into `Option`
(exception paths are `none` by construction, and there is no state to
mutate); the checkable content is that each kind-specific constraint
violation yields `none`.  Raw `data` lengths below count the `0x` prefix,
matching the source: e.g. a stripped length `< 128` is a raw length
`< 130`. -/

theorem pyDrop2_length (s : String) :
    (pyDrop2 s).data.length = s.data.length - 2 := by
  simp [pyDrop2]

/-- C6: each of the eight decode operations returns no result whenever its
kind-specific minimum topic count or minimum data length is violated (and,
by the `Option`-valued embedding, never raises and has no side effects). -/
theorem decoders_return_none_on_violation (log : RawLog) :
    (log.topics.length < 3 → decode_transfer log = none) ∧
    (log.data.data.length < 66 → decode_transfer log = none) ∧
    (log.topics.length < 3 → decode_pair_created log = none) ∧
    (log.data.data.length < 42 → decode_pair_created log = none) ∧
    (log.data.data.length < 130 → decode_mint_event log = none) ∧
    (log.topics.length < 4 → decode_mint_v3_event log = none) ∧
    (log.data.data.length < 258 → decode_mint_v3_event log = none) ∧
    (log.topics.length < 3 → decode_pool_created_v3 log = none) ∧
    (log.data.data.length < 130 → decode_pool_created_v3 log = none) ∧
    (log.topics.length < 3 → decode_swap_v2_event log = none) ∧
    (log.data.data.length < 258 → decode_swap_v2_event log = none) ∧
    (log.topics.length < 3 → decode_swap_v3_event log = none) ∧
    (log.data.data.length < 258 → decode_swap_v3_event log = none) ∧
    (log.data.data.length < 130 → decode_burn_event log = none) := by
  refine ⟨?_, ?_, ?_, ?_, ?_, ?_, ?_, ?_, ?_, ?_, ?_, ?_, ?_, ?_⟩
  · intro h
    unfold decode_transfer
    rw [if_pos h]
  · intro h
    unfold decode_transfer
    by_cases h3 : log.topics.length < 3
    · rw [if_pos h3]
    · rw [if_neg h3, if_pos h]
  · intro h
    unfold decode_pair_created
    rw [if_pos h]
  · intro h
    unfold decode_pair_created
    by_cases h3 : log.topics.length < 3
    · rw [if_pos h3]
    · rw [if_neg h3, if_pos h]
  · intro h
    unfold decode_mint_event
    rw [if_pos (by rw [pyDrop2_length]; omega)]
  · intro h
    unfold decode_mint_v3_event
    rw [if_pos h]
  · intro h
    unfold decode_mint_v3_event
    by_cases h4 : log.topics.length < 4
    · rw [if_pos h4]
    · rw [if_neg h4, if_pos (by rw [pyDrop2_length]; omega)]
  · intro h
    unfold decode_pool_created_v3
    rw [if_pos h]
  · intro h
    unfold decode_pool_created_v3
    by_cases h3 : log.topics.length < 3
    · rw [if_pos h3]
    · rw [if_neg h3, if_pos (by rw [pyDrop2_length]; omega)]
  · intro h
    unfold decode_swap_v2_event
    rw [if_pos h]
  · intro h
    unfold decode_swap_v2_event
    by_cases h3 : log.topics.length < 3
    · rw [if_pos h3]
    · rw [if_neg h3, if_pos (by rw [pyDrop2_length]; omega)]
  · intro h
    unfold decode_swap_v3_event
    rw [if_pos h]
  · intro h
    unfold decode_swap_v3_event
    by_cases h3 : log.topics.length < 3
    · rw [if_pos h3]
    · rw [if_neg h3, if_pos (by rw [pyDrop2_length]; omega)]
  · intro h
    unfold decode_burn_event
    rw [if_pos (by rw [pyDrop2_length]; omega)]

/-- C6 witness: the empty log violates every constraint and every decoder
returns no result on it. -/
theorem decoders_return_none_on_violation_witness :
    decode_transfer emptyLog = none ∧
    decode_pair_created emptyLog = none ∧
    decode_mint_event emptyLog = none ∧
    decode_mint_v3_event emptyLog = none ∧
    decode_pool_created_v3 emptyLog = none ∧
    decode_swap_v2_event emptyLog = none ∧
    decode_swap_v3_event emptyLog = none ∧
    decode_burn_event emptyLog = none :=
  ⟨(decoders_return_none_on_violation emptyLog).1 (by decide),
    (decoders_return_none_on_violation emptyLog).2.2.1 (by decide),
    (decoders_return_none_on_violation emptyLog).2.2.2.2.1 (by decide),
    (decoders_return_none_on_violation emptyLog).2.2.2.2.2.1 (by decide),
    (decoders_return_none_on_violation emptyLog).2.2.2.2.2.2.2.1 (by decide),
    (decoders_return_none_on_violation emptyLog).2.2.2.2.2.2.2.2.2.1 (by decide),
    (decoders_return_none_on_violation emptyLog).2.2.2.2.2.2.2.2.2.2.2.1 (by decide),
    (decoders_return_none_on_violation emptyLog).2.2.2.2.2.2.2.2.2.2.2.2.2 (by decide)⟩

/-! ### Parsing lemmas for the decoder claims -/

theorem to_checksum_address_hexPrefix (l : List Char) (hlen : l.length = 40)
    (hhex : l.all isHexDigitChar = true) :
    to_checksum_address ⟨'0' :: 'x' :: l⟩ =
      some ⟨'0' :: 'x' :: l.map Char.toLower⟩ := by
  simp [to_checksum_address, hlen, hhex]

theorem pyIntHex_mk (l : List Char) (hne : l ≠ [])
    (hhex : l.all isHexDigitChar = true) :
    pyIntHex ⟨l⟩ = some (hexListVal l) := by
  unfold pyIntHex
  cases l with
  | nil => exact absurd rfl hne
  | cons c cs => simpa using hhex

theorem slice_all_hex (ds : List Char) (a b : Nat)
    (h : ds.all isHexDigitChar = true) :
    ((ds.drop a).take b).all isHexDigitChar = true := by
  rw [List.all_eq_true] at h ⊢
  intro x hx
  exact h x (List.drop_subset a ds (List.take_subset b (ds.drop a) hx))

theorem slice_ne_nil (ds : List Char) (a : Nat) (h : a + 64 ≤ ds.length) :
    (ds.drop a).take 64 ≠ [] := by
  have : 0 < ((ds.drop a).take 64).length := by
    rw [List.length_take, List.length_drop]
    omega
  exact List.ne_nil_of_length_pos this

theorem pyIntHex_slice (ds : List Char) (a : Nat)
    (hhex : ds.all isHexDigitChar = true) (h : a + 64 ≤ ds.length) :
    pyIntHex (pySlice ⟨ds⟩ a (a + 64)) =
      some (hexListVal ((ds.drop a).take 64)) := by
  have he : pySlice ⟨ds⟩ a (a + 64) = (⟨(ds.drop a).take 64⟩ : String) := by
    unfold pySlice
    simp
  rw [he]
  exact pyIntHex_mk _ (slice_ne_nil ds a h) (slice_all_hex ds a 64 hhex)

/-! ## Claim C2 — Transfer decoding

The address part of the claim holds, but the amount part fails on the code:
`decode_transfer` parses the ENTIRE data payload (`int(data[2:], 16)`), not
the first 32-byte word, so any Transfer log whose data is longer than 32
bytes decodes to a different amount than the claim specifies. -/

theorem decode_transfer_eval (log : RawLog) (ds : List Char)
    (hdata : log.data.data = '0' :: 'x' :: ds)
    (hlen : 64 ≤ ds.length) (hhex : ds.all isHexDigitChar = true)
    (htop : 3 ≤ log.topics.length)
    (ht1 : validAddrTail (log.topics.getD 1 ""))
    (ht2 : validAddrTail (log.topics.getD 2 "")) :
    decode_transfer log =
      some (canonTopicAddress (log.topics.getD 1 ""),
        canonTopicAddress (log.topics.getD 2 ""),
        (hexListVal ds : ℚ) / 10 ^ CONTRACT_DECIMALS) := by
  unfold decode_transfer
  rw [if_neg (by omega)]
  have hd2 : pyDrop2 log.data = (⟨ds⟩ : String) := by
    unfold pyDrop2
    rw [hdata]
    rfl
  rw [if_neg (by rw [hdata]; simp; omega)]
  rw [hd2, pyIntHex_mk ds (by intro hnil; rw [hnil] at hlen; simp at hlen) hhex]
  unfold topicAddress hexPrefix
  rw [to_checksum_address_hexPrefix _ ht1.1 ht1.2,
    to_checksum_address_hexPrefix _ ht2.1 ht2.2]
  rfl

set_option maxRecDepth 40000 in
/-- C2 counterexample: a Transfer log with ≥3 topics and 64 bytes of data
whose first 32-byte word is 1 decodes to amount `16 ^ 64 / 10 ^ 18`
(the whole blob parsed as one integer), not `1 / 10 ^ 18` as the claim's
"first 32-byte word" reading requires. -/
theorem decode_transfer_whole_data_cex :
    decode_transfer twoWordTransferLog =
      some (canonTopicAddress (twoWordTransferLog.topics.getD 1 ""),
        canonTopicAddress (twoWordTransferLog.topics.getD 2 ""),
        (16 ^ 64 : ℚ) / 10 ^ 18) ∧
    dataWord twoWordDataTail 0 = 1 ∧
    (16 ^ 64 : ℚ) / 10 ^ 18 ≠ (1 : ℚ) / 10 ^ 18 := by
  have hnat : hexListVal twoWordDataTail = 16 ^ 64 := by decide
  have h := decode_transfer_eval twoWordTransferLog twoWordDataTail rfl
    (by decide) (by decide) (by decide) (by decide) (by decide)
  rw [hnat] at h
  exact ⟨h, by decide, by norm_num⟩

/-- C2 (amended): for every Transfer log with at least 3 topics, hex-digit
address tails in topics 1 and 2, and a `0x`-prefixed all-hex data payload of
at least 32 bytes, `decode_transfer` deterministically returns `from` = the
last 40 hex chars of topic 1 and `to` = the last 40 hex chars of topic 2
(case-canonicalised by checksumming), and the amount equals the ENTIRE data
payload interpreted as an unsigned hex integer divided by `10^decimals`;
this coincides with the claim's "first 32-byte word" reading exactly when
the data is exactly 32 bytes long. -/
theorem decode_transfer_spec (log : RawLog) (ds : List Char)
    (hdata : log.data.data = '0' :: 'x' :: ds)
    (hlen : 64 ≤ ds.length) (hhex : ds.all isHexDigitChar = true)
    (htop : 3 ≤ log.topics.length)
    (ht1 : validAddrTail (log.topics.getD 1 ""))
    (ht2 : validAddrTail (log.topics.getD 2 "")) :
    decode_transfer log =
      some (canonTopicAddress (log.topics.getD 1 ""),
        canonTopicAddress (log.topics.getD 2 ""),
        (hexListVal ds : ℚ) / 10 ^ CONTRACT_DECIMALS) ∧
    (ds.length = 64 → hexListVal ds = dataWord ds 0) := by
  constructor
  · exact decode_transfer_eval log ds hdata hlen hhex htop ht1 ht2
  · intro h64
    unfold dataWord
    rw [Nat.mul_zero, List.drop_zero, List.take_of_length_le (by omega)]

/-- C2 amended witness: a concrete single-word Transfer log, where the
whole-data amount and the first-word amount agree. -/
theorem decode_transfer_spec_witness :
    decode_transfer mintTransferLog =
      some (canonTopicAddress (mintTransferLog.topics.getD 1 ""),
        canonTopicAddress (mintTransferLog.topics.getD 2 ""),
        (hexListVal ('1' :: List.replicate 63 '0') : ℚ) /
          10 ^ CONTRACT_DECIMALS) ∧
    ((('1' :: List.replicate 63 '0') : List Char).length = 64 →
      hexListVal ('1' :: List.replicate 63 '0') =
        dataWord ('1' :: List.replicate 63 '0') 0) := by
  have h := decode_transfer_spec mintTransferLog ('1' :: List.replicate 63 '0')
    (by decide) (by decide) (by decide) (by decide) (by decide) (by decide)
  exact ⟨h.1, fun _ => h.2 (by decide)⟩

/-! ## Claim C5 — SwapV3 two's-complement sign recovery -/

/-- C5: for every SwapV3 log with at least 3 topics, hex-digit topic address
tails, and a `0x`-prefixed all-hex data payload of at least 256 hex chars,
decoding succeeds with the absolute values of the two's-complement readings
of words 0 and 1; the magnitudes are non-negative, sign recovery maps any
raw word ≥ 2^255 to `w − 2^256` before the absolute value is taken, any
word < 2^255 decodes to magnitude `w`, and the all-ones word `2^256 − 1`
decodes to magnitude 1. -/
theorem decodeSwapV3_sign_recovery (log : RawLog) (ds : List Char)
    (hdata : log.data.data = '0' :: 'x' :: ds)
    (hlen : 256 ≤ ds.length) (hhex : ds.all isHexDigitChar = true)
    (htop : 3 ≤ log.topics.length)
    (ht1 : validAddrTail (log.topics.getD 1 ""))
    (ht2 : validAddrTail (log.topics.getD 2 "")) :
    decode_swap_v3_event log =
      some (canonTopicAddress (log.topics.getD 1 ""),
        canonTopicAddress (log.topics.getD 2 ""),
        |signedWord (dataWord ds 0)|, |signedWord (dataWord ds 1)|,
        dataWord ds 2, dataWord ds 3) ∧
    0 ≤ |signedWord (dataWord ds 0)| ∧ 0 ≤ |signedWord (dataWord ds 1)| ∧
    (∀ w : Nat, 2 ^ 255 ≤ w → signedWord w = (w : ℤ) - 2 ^ 256) ∧
    (∀ w : Nat, w < 2 ^ 255 → |signedWord w| = w) ∧
    |signedWord (2 ^ 256 - 1)| = 1 := by
  refine ⟨?_, abs_nonneg _, abs_nonneg _, ?_, ?_, ?_⟩
  · unfold decode_swap_v3_event
    rw [if_neg (by omega)]
    have hd2 : pyDrop2 log.data = (⟨ds⟩ : String) := by
      unfold pyDrop2
      rw [hdata]
      rfl
    rw [hd2]
    rw [if_neg (by simp; omega)]
    have h0 : pyIntHex (pySlice ⟨ds⟩ 0 64) =
        some (hexListVal ((ds.drop 0).take 64)) :=
      pyIntHex_slice ds 0 hhex (by omega)
    have h1 : pyIntHex (pySlice ⟨ds⟩ 64 128) =
        some (hexListVal ((ds.drop 64).take 64)) :=
      pyIntHex_slice ds 64 hhex (by omega)
    have h2 : pyIntHex (pySlice ⟨ds⟩ 128 192) =
        some (hexListVal ((ds.drop 128).take 64)) :=
      pyIntHex_slice ds 128 hhex (by omega)
    have h3 : pyIntHex (pySlice ⟨ds⟩ 192 256) =
        some (hexListVal ((ds.drop 192).take 64)) :=
      pyIntHex_slice ds 192 hhex (by omega)
    rw [h0, h1, h2, h3]
    unfold topicAddress hexPrefix
    rw [to_checksum_address_hexPrefix _ ht1.1 ht1.2,
      to_checksum_address_hexPrefix _ ht2.1 ht2.2]
    rfl
  · intro w hw
    unfold signedWord
    rw [if_neg (by omega)]
  · intro w hw
    unfold signedWord
    rw [if_pos hw]
    exact abs_of_nonneg (Int.natCast_nonneg w)
  · norm_num [signedWord]

set_option maxRecDepth 40000 in
/-- C5 witness: the concrete SwapV3 log whose word0 is all-ones decodes to
magnitude 1 and whose word1 = 5 decodes to magnitude 5. -/
theorem decodeSwapV3_sign_recovery_witness :
    decode_swap_v3_event swapV3Log =
      some (canonTopicAddress (swapV3Log.topics.getD 1 ""),
        canonTopicAddress (swapV3Log.topics.getD 2 ""),
        |signedWord (dataWord swapV3DataTail 0)|,
        |signedWord (dataWord swapV3DataTail 1)|,
        dataWord swapV3DataTail 2, dataWord swapV3DataTail 3) ∧
    |signedWord (dataWord swapV3DataTail 0)| = 1 ∧
    |signedWord (dataWord swapV3DataTail 1)| = 5 :=
  ⟨(decodeSwapV3_sign_recovery swapV3Log swapV3DataTail rfl (by decide)
      (by decide) (by decide) (by decide) (by decide)).1,
    by decide, by decide⟩

/-! ## Claim C10 — only the monitored token's Transfer logs are handled -/

/-- C10: if the emitting contract of a Transfer-signature log differs
(case-insensitively) from the monitored token address, `_handle_transfer`
returns immediately: the registry is unchanged and no notification is
emitted (in the source the guard precedes the decode call, so the log is
never decoded either). -/
theorem handle_transfer_foreign_skip (tr : PoolTracker) (log : RawLog)
    (h : pyLower log.address ≠ pyLower ERC20_CONTRACT_ADDRESS) :
    handle_transfer
        { contract_address := pyLower ERC20_CONTRACT_ADDRESS,
          pool_tracker := tr } log =
      ({ contract_address := pyLower ERC20_CONTRACT_ADDRESS,
          pool_tracker := tr }, []) := by
  unfold handle_transfer
  rw [if_pos h]

/-- C10 witness: a Transfer-shaped log from a different contract leaves the
state untouched and emits nothing. -/
theorem handle_transfer_foreign_skip_witness :
    handle_transfer
        { contract_address := pyLower ERC20_CONTRACT_ADDRESS,
          pool_tracker := trackerA } foreignTransferLog =
      ({ contract_address := pyLower ERC20_CONTRACT_ADDRESS,
          pool_tracker := trackerA }, []) :=
  handle_transfer_foreign_skip trackerA foreignTransferLog (by decide)

/-! ## Claim C8 — sub-threshold events never reach classification or
notification -/

/-- C8: in each of the three cited handlers, an event whose decoded token
amount is strictly below `MIN_TOKENS_THRESHOLD` (its magnitude, for the
signed net swap amount) makes the handler return before the classifier is
consulted and before any notification is sent, with the registry
unchanged. -/
theorem threshold_filter_never (st : SpiderState) (log : RawLog) :
    (∀ (f t : String) (a : ℚ), decode_transfer log = some (f, t, a) →
        a < MIN_TOKENS_THRESHOLD → handle_transfer st log = (st, [])) ∧
    (∀ (p : Pool) (a0 a1 : ℚ),
        get_pool_info st.pool_tracker (pyLower log.address) = some p →
        decode_mint_event log = some (a0, a1) →
        (if pyLower p.token0 = st.contract_address then a0 else a1) <
          MIN_TOKENS_THRESHOLD →
        handle_mint_v2 st log = (st, [])) ∧
    (∀ (p : Pool) (s t : String) (a0i a1i a0o a1o : Nat),
        get_pool_info st.pool_tracker (pyLower log.address) = some p →
        decode_swap_v2_event log = some (s, t, a0i, a1i, a0o, a1o) →
        |if pyLower p.token0 = st.contract_address then
            (((a0i : ℤ) - (a0o : ℤ) : ℤ) : ℚ) / 10 ^ CONTRACT_DECIMALS
          else
            (((a1i : ℤ) - (a1o : ℤ) : ℤ) : ℚ) / 10 ^ CONTRACT_DECIMALS| <
          MIN_TOKENS_THRESHOLD →
        handle_swap_v2 st log = (st, [])) := by
  refine ⟨?_, ?_, ?_⟩
  · intro f t a hdec hthr
    unfold handle_transfer
    by_cases haddr : pyLower log.address ≠ st.contract_address
    · rw [if_pos haddr]
    · rw [if_neg haddr, hdec]
      dsimp only
      rw [if_pos hthr]
  · intro p a0 a1 hpool hdec hthr
    unfold handle_mint_v2
    dsimp only
    rw [hpool]
    dsimp only
    rw [hdec]
    dsimp only
    rw [if_pos hthr]
  · intro p s t a0i a1i a0o a1o hpool hdec hthr
    unfold handle_swap_v2
    dsimp only
    rw [hpool]
    dsimp only
    rw [hdec]
    dsimp only
    rw [if_pos hthr]

set_option maxRecDepth 40000 in
/-- C8 witness: a sub-threshold transfer, a sub-threshold V2 mint and a
sub-threshold V2 swap on the registered pool each leave the state unchanged
and emit nothing. -/
theorem threshold_filter_never_witness :
    handle_transfer initialSpiderState smallTransferLog =
        (initialSpiderState, []) ∧
    handle_mint_v2 spiderStateA smallMintLog = (spiderStateA, []) ∧
    handle_swap_v2 spiderStateA smallSwapLog = (spiderStateA, []) :=
  ⟨(threshold_filter_never initialSpiderState smallTransferLog).1
      "0xaabbccddeeff00112233445566778899aabbccdd"
      "0x1122334455667788990011223344556677889900"
      ((1 : ℚ) / 10 ^ 18) (by rfl) (by norm_num [MIN_TOKENS_THRESHOLD]),
    (threshold_filter_never spiderStateA smallMintLog).2.1
      (fresh_pool poolAddrA ERC20_CONTRACT_ADDRESS poolAddrB "V2" 0)
      ((1 : ℚ) / 10 ^ 18) ((1 : ℚ) / 10 ^ 18) (by rfl) (by rfl)
      (by
        rw [if_pos
          (show pyLower (fresh_pool poolAddrA ERC20_CONTRACT_ADDRESS
              poolAddrB "V2" 0).token0 = spiderStateA.contract_address
            from rfl)]
        norm_num [MIN_TOKENS_THRESHOLD]),
    (threshold_filter_never spiderStateA smallSwapLog).2.2
      (fresh_pool poolAddrA ERC20_CONTRACT_ADDRESS poolAddrB "V2" 0)
      "0xaabbccddeeff00112233445566778899aabbccdd"
      "0x1122334455667788990011223344556677889900"
      2 0 1 0 (by rfl) (by rfl)
      (by
        rw [if_pos
          (show pyLower (fresh_pool poolAddrA ERC20_CONTRACT_ADDRESS
              poolAddrB "V2" 0).token0 = spiderStateA.contract_address
            from rfl)]
        rw [abs_of_nonneg (by norm_num)]
        norm_num [CONTRACT_DECIMALS, MIN_TOKENS_THRESHOLD])⟩

/-! ## Claim C4 — zero-address transfers and classification precedence

At the classifier level the claimed precedence holds (`from` = zero wins
first, for every `to`).  End-to-end the claim fails: `_handle_transfer`
short-circuits burn-address and DEX-router destinations BEFORE consulting
the classifier, so a transfer from the zero address to the burn address is
notified as a burn, not a mint. -/

theorem classify_zero_from (f t : String) (pi : Option Pool)
    (h : pyLower f = pyLower ZERO_ADDRESS) :
    classify_transaction_type f t pi =
      ("🖨️ TOKEN MINT", "New tokens minted") := by
  unfold classify_transaction_type
  rw [if_pos h]

set_option maxRecDepth 40000 in
/-- C4 counterexample: an above-threshold Transfer of the monitored token
with `from` = zero address and `to` = the burn address is decoded with the
zero `from`, yet the pipeline emits a TOKEN BURN notification — the burn
short-circuit in `_handle_transfer` runs before the classifier, so the
emitted category is not mint for every `to`. -/
theorem handle_transfer_zero_to_burn_cex :
    decode_transfer zeroToBurnLog =
      some ("0x0000000000000000000000000000000000000000",
        "0x000000000000000000000000000000000000dead",
        (16 ^ 63 : ℚ) / 10 ^ 18) ∧
    handle_transfer initialSpiderState zeroToBurnLog =
      (initialSpiderState,
        [Notification.token_burn ((16 ^ 63 : ℚ) / 10 ^ 18)
          "0x0000000000000000000000000000000000000000" "0xtx2"]) := by
  have hdec : decode_transfer zeroToBurnLog =
      some ("0x0000000000000000000000000000000000000000",
        "0x000000000000000000000000000000000000dead",
        (16 ^ 63 : ℚ) / 10 ^ 18) := by rfl
  refine ⟨hdec, ?_⟩
  unfold handle_transfer
  rw [if_neg (not_not_intro
    (show pyLower zeroToBurnLog.address = initialSpiderState.contract_address
      from rfl))]
  rw [hdec]
  dsimp only
  rw [if_neg (by norm_num [MIN_TOKENS_THRESHOLD])]
  rw [if_pos (by decide)]
  rfl

/-- C4 (amended): at the classifier level the fixed first-match-wins
precedence holds exactly as claimed — `from` = zero ⇒ mint for every `to`,
then `to` = zero-or-burn ⇒ burn, then pool context, then router, then
exchange rules, then the default; end-to-end, however, the transfer handler
consults the classifier only after its own burn-address and DEX-router
short-circuits, so the emitted category is mint exactly for those zero-from
transfers whose `to` is neither the zero/burn address nor a DEX router. -/
theorem classify_precedence_and_zero_from_mint (st : SpiderState)
    (log : RawLog) :
    (∀ (f t : String) (pi : Option Pool),
        pyLower f = pyLower ZERO_ADDRESS →
        classify_transaction_type f t pi =
          ("🖨️ TOKEN MINT", "New tokens minted")) ∧
    (∀ (f t : String) (pi : Option Pool),
        pyLower f ≠ pyLower ZERO_ADDRESS →
        (pyLower t = pyLower ZERO_ADDRESS ∨ pyLower t = pyLower BURN_ADDRESS) →
        classify_transaction_type f t pi = ("🔥 TOKEN BURN", "Tokens burned")) ∧
    (∀ (f t : String) (p : Pool),
        pyLower f ≠ pyLower ZERO_ADDRESS →
        ¬(pyLower t = pyLower ZERO_ADDRESS ∨ pyLower t = pyLower BURN_ADDRESS) →
        classify_transaction_type f t (some p) =
          if p.has_liquidity then ("🏊 POOL ACTIVITY", "Pool trading activity")
          else ("🏖️ POOL SETUP", "Pool initialisation")) ∧
    (∀ (f t : String),
        pyLower f ≠ pyLower ZERO_ADDRESS →
        ¬(pyLower t = pyLower ZERO_ADDRESS ∨ pyLower t = pyLower BURN_ADDRESS) →
        (pyLower f ∈ DEX_ROUTERS ∨ pyLower t ∈ DEX_ROUTERS) →
        classify_transaction_type f t none = ("🔄 DEX SWAP", "DEX swap executed")) ∧
    (∀ (f t : String),
        pyLower f ≠ pyLower ZERO_ADDRESS →
        ¬(pyLower t = pyLower ZERO_ADDRESS ∨ pyLower t = pyLower BURN_ADDRESS) →
        ¬(pyLower f ∈ DEX_ROUTERS ∨ pyLower t ∈ DEX_ROUTERS) →
        pyLower f ∈ CEX_ADDRESSES →
        classify_transaction_type f t none =
          ("🏦 CEX WITHDRAW", "Withdrawal from CEX")) ∧
    (∀ (f t : String),
        pyLower f ≠ pyLower ZERO_ADDRESS →
        ¬(pyLower t = pyLower ZERO_ADDRESS ∨ pyLower t = pyLower BURN_ADDRESS) →
        ¬(pyLower f ∈ DEX_ROUTERS ∨ pyLower t ∈ DEX_ROUTERS) →
        pyLower f ∉ CEX_ADDRESSES → pyLower t ∈ CEX_ADDRESSES →
        classify_transaction_type f t none =
          ("🏦 CEX DEPOSIT", "Deposit to CEX")) ∧
    (∀ (f t : String),
        pyLower f ≠ pyLower ZERO_ADDRESS →
        ¬(pyLower t = pyLower ZERO_ADDRESS ∨ pyLower t = pyLower BURN_ADDRESS) →
        ¬(pyLower f ∈ DEX_ROUTERS ∨ pyLower t ∈ DEX_ROUTERS) →
        pyLower f ∉ CEX_ADDRESSES → pyLower t ∉ CEX_ADDRESSES →
        classify_transaction_type f t none = ("🔄 TRANSFER", "Default transfer")) ∧
    (∀ (f t : String) (a : ℚ),
        pyLower log.address = st.contract_address →
        decode_transfer log = some (f, t, a) →
        ¬ a < MIN_TOKENS_THRESHOLD →
        pyLower f = pyLower ZERO_ADDRESS →
        ¬(pyLower t = pyLower ZERO_ADDRESS ∨ pyLower t = pyLower BURN_ADDRESS) →
        pyLower t ∉ DEX_ROUTERS.map pyLower →
        handle_transfer st log =
          (st, [Notification.transfer_note "🖨️ TOKEN MINT" "New tokens minted"
            a f t log.transactionHash
            (find_related_pool f t st.pool_tracker)])) := by
  refine ⟨classify_zero_from, ?_, ?_, ?_, ?_, ?_, ?_, ?_⟩
  · intro f t pi h1 h2
    unfold classify_transaction_type
    rw [if_neg h1, if_pos h2]
  · intro f t p h1 h2
    unfold classify_transaction_type
    rw [if_neg h1, if_neg h2]
  · intro f t h1 h2 h3
    unfold classify_transaction_type
    rw [if_neg h1, if_neg h2]
    dsimp only
    rw [if_pos h3]
  · intro f t h1 h2 h3 h4
    unfold classify_transaction_type
    rw [if_neg h1, if_neg h2]
    dsimp only
    rw [if_neg h3, if_pos h4]
  · intro f t h1 h2 h3 h4 h5
    unfold classify_transaction_type
    rw [if_neg h1, if_neg h2]
    dsimp only
    rw [if_neg h3, if_neg h4, if_pos h5]
  · intro f t h1 h2 h3 h4 h5
    unfold classify_transaction_type
    rw [if_neg h1, if_neg h2]
    dsimp only
    rw [if_neg h3, if_neg h4, if_neg h5]
  · intro f t a haddr hdec hthr hzero hnb hnr
    unfold handle_transfer
    rw [if_neg (not_not_intro haddr), hdec]
    dsimp only
    rw [if_neg hthr, if_neg hnb, if_neg hnr,
      classify_zero_from f t _ hzero]

set_option maxRecDepth 40000 in
/-- C4 amended witness: an above-threshold zero-from transfer to an ordinary
wallet is notified end-to-end as TOKEN MINT, and the classifier maps a
zero-from pair to mint. -/
theorem classify_precedence_and_zero_from_mint_witness :
    classify_transaction_type "0x0000000000000000000000000000000000000000"
        "0xaabbccddeeff00112233445566778899aabbccdd" none =
      ("🖨️ TOKEN MINT", "New tokens minted") ∧
    handle_transfer initialSpiderState mintTransferLog =
      (initialSpiderState,
        [Notification.transfer_note "🖨️ TOKEN MINT" "New tokens minted"
          ((16 ^ 63 : ℚ) / 10 ^ 18)
          "0x0000000000000000000000000000000000000000"
          "0xaabbccddeeff00112233445566778899aabbccdd" "0xtx1"
          (find_related_pool "0x0000000000000000000000000000000000000000"
            "0xaabbccddeeff00112233445566778899aabbccdd"
            initialSpiderState.pool_tracker)]) :=
  ⟨(classify_precedence_and_zero_from_mint initialSpiderState
        mintTransferLog).1
      "0x0000000000000000000000000000000000000000"
      "0xaabbccddeeff00112233445566778899aabbccdd" none rfl,
    (classify_precedence_and_zero_from_mint initialSpiderState
        mintTransferLog).2.2.2.2.2.2.2
      "0x0000000000000000000000000000000000000000"
      "0xaabbccddeeff00112233445566778899aabbccdd"
      ((16 ^ 63 : ℚ) / 10 ^ 18) rfl (by rfl)
      (by norm_num [MIN_TOKENS_THRESHOLD]) rfl (by decide) (by decide)⟩

end Spider
